import Mathlib

/-!
Verification of the Lenden secure-login core (backend services) against its
natural-language specification.

The development shallowly embeds the TypeScript sources:
* `src/backend/src/services/encryptionService.ts`  (field encryption engine)
* `src/backend/src/services/authService.ts`        (identity service)
* `src/backend/src/repositories/UserRepository.ts` (user-record store access)
* `src/backend/src/models/User.ts`                 (validation rules)
* profile service / routes (unnamed parts of the repository)

External primitives (Node `crypto` AES-256-GCM, SHA-256, `bcrypt`,
`jsonwebtoken`) are not part of the repository; they are modelled from the
spec's contracts (§4.1-§4.4) as executable idealized functions: the AEAD is a
stream cipher (XOR keystream, CTR-style, exactly GCM's confidentiality shape)
whose authentication tag is an ideal binder of (key, iv, aad, ciphertext);
bcrypt's verify succeeds exactly on the password the hash was derived from;
the token signature is an ideal binding of (secret, claims).  Strings are
modelled at the level of their character codes; the hex transport encoding of
ciphertext/iv/tag is abstracted to byte lists except in key derivation, where
the 64-hex-character fast path of the source is modelled exactly.
-/

namespace Lenden

/-! ### Bytes and strings -/

/-- The code points of a string, the byte-level view of a plaintext. -/
def strBytes (s : String) : List Nat := s.data.map Char.toNat

/-- Rebuild a string from code points (inverse of `strBytes` on valid data). -/
def bytesStr (l : List Nat) : String := ⟨l.map Char.ofNat⟩

/-! ### Hex decoding (Node `Buffer.from(key, 'hex')` on a fully-valid hex string) -/

/-- Is `c` one of `0-9a-fA-F` (the class of the source's `/^[0-9a-fA-F]+$/`)? -/
def isHexDigitChar (c : Char) : Bool :=
  let n := c.toNat
  decide ((48 ≤ n ∧ n ≤ 57) ∨ (97 ≤ n ∧ n ≤ 102) ∨ (65 ≤ n ∧ n ≤ 70))

/-- Value of a hex digit character. -/
def hexVal (c : Char) : Nat :=
  let n := c.toNat
  if 48 ≤ n ∧ n ≤ 57 then n - 48
  else if 97 ≤ n ∧ n ≤ 102 then n - 87
  else if 65 ≤ n ∧ n ≤ 70 then n - 55
  else 0

/-- Decode consecutive hex-digit pairs into bytes. -/
def hexDecodePairs : List Char → List Nat
  | c1 :: c2 :: rest => (16 * hexVal c1 + hexVal c2) :: hexDecodePairs rest
  | _ => []

/-! ### Modelled external crypto primitives -/

/-- Modelled from the spec (§4.1): Node `crypto.createHash('sha256')`, which is
not repository code.  Only the properties the spec relies on are kept: the
digest is a deterministic function of the input and is always 32 bytes. -/
def sha256Model (s : String) : List Nat :=
  (List.range 32).map
    (fun i => (s.data.foldl (fun a c => (a * 131 + c.toNat) % 1000000007) (i + 7)) % 256)

/-- Modelled from the spec (§4.2): the AES-256-CTR keystream byte at offset
`i`, a function of key and iv only.  Its exact values are irrelevant to every
claim; only the XOR-stream shape of GCM is used. -/
def ksByte (key iv : List Nat) (i : Nat) : Nat :=
  (key.sum * 7 + iv.sum * 13 + i * 31 + 5) % 256

/-- XOR a byte list against the keystream starting at offset `i`
(GCM encryption and decryption are both exactly this). -/
def xorKs (key iv : List Nat) : Nat → List Nat → List Nat
  | _, [] => []
  | i, b :: rest => (b ^^^ ksByte key iv i) :: xorKs key iv (i + 1) rest

/-- The fixed associated data the source binds on both sides
(`cipher.setAAD(Buffer.from('additional-auth-data'))`). -/
def aadConst : String := "additional-auth-data"

/-- Modelled from the spec (§4.2): the GCM authentication tag, idealized as a
perfect binder of key, iv, associated data and ciphertext (the spec's
fail-closed contract; real GCM provides this computationally). -/
structure GcmTag where
  key : List Nat
  iv : List Nat
  aad : String
  ct : List Nat
deriving DecidableEq, Repr

/-- The `EncryptionResult` interface of `encryptionService.ts`: ciphertext,
iv and auth tag (hex transport abstracted to the decoded values; the 16-byte
tag is abstracted to one ideal `GcmTag` value, `[]` standing for a
missing/empty component). -/
structure EncryptionResult where
  encryptedData : List Nat
  iv : List Nat
  authTag : List GcmTag
deriving DecidableEq, Repr

/-! ### EncryptionService (`encryptionService.ts`) -/

/-- `EncryptionService.getEncryptionKey` (lines 15-28): no configured key is
an error; a 64-character all-hex key is decoded directly; any other key is
hashed with SHA-256 to exactly 32 bytes.  `none` models an unset
`ENCRYPTION_KEY`; the empty string is falsy in the source and errors too. -/
def getEncryptionKey (envKey : Option String) : Except String (List Nat) :=
  match envKey with
  | none => .error "ENCRYPTION_KEY environment variable is not set"
  | some key =>
    if key = "" then .error "ENCRYPTION_KEY environment variable is not set"
    else if key.length = 64 ∧ key.data.all isHexDigitChar then .ok (hexDecodePairs key.data)
    else .ok (sha256Model key)

/-- `EncryptionService.encryptSensitiveData` (lines 35-59).  The fresh random
`iv` (`crypto.randomBytes(16)`) is passed in explicitly as the call's
randomness.  Empty plaintext is rejected; a missing key surfaces, wrapped by
the catch block, as `Encryption failed: ...`. -/
def encryptSensitiveData (envKey : Option String) (ivRandom : List Nat) (plaintext : String) :
    Except String EncryptionResult :=
  if plaintext = "" then
    .error "Encryption failed: Invalid input: plaintext must be a non-empty string"
  else
    match getEncryptionKey envKey with
    | .error e => .error ("Encryption failed: " ++ e)
    | .ok key =>
      let ct := xorKs key ivRandom 0 (strBytes plaintext)
      .ok ⟨ct, ivRandom, [⟨key, ivRandom, aadConst, ct⟩]⟩

/-- `EncryptionService.decryptSensitiveData` (lines 66-87): missing components
are rejected up front; then the tag is verified against the configured key,
the stored iv and the stored ciphertext, and the plaintext is produced only on
success — any failure is wrapped by the catch block as `Decryption failed:`. -/
def decryptSensitiveData (envKey : Option String) (er : EncryptionResult) :
    Except String String :=
  if er.encryptedData = [] ∨ er.iv = [] ∨ er.authTag = [] then
    .error "Decryption failed: Invalid input: missing required encryption components"
  else
    match getEncryptionKey envKey with
    | .error e => .error ("Decryption failed: " ++ e)
    | .ok key =>
      if er.authTag = [⟨key, er.iv, aadConst, er.encryptedData⟩] then
        .ok (bytesStr (xorKs key er.iv 0 er.encryptedData))
      else
        .error "Decryption failed: Unsupported state or unable to authenticate data"

/-- The `EncryptionService` class body declares no constructor: instantiating
the service touches neither the environment nor the key; the key is read only
inside `encryptSensitiveData`/`decryptSensitiveData`. -/
def encryptionServiceConstructor (_envKey : Option String) : Except String Unit :=
  .ok ()

/-- `AuthService` constructor (authService.ts lines 38-43): the JWT secret is
checked eagerly at construction time and a missing or empty secret is fatal. -/
def authServiceConstructor (jwtSecret : Option String) : Except String String :=
  match jwtSecret with
  | none => .error "JWT_SECRET environment variable is required"
  | some s =>
    if s = "" then .error "JWT_SECRET environment variable is required" else .ok s

/-- A concrete 64-hex-character configured secret used by witnesses. -/
def zeros64 : String := "0000000000000000000000000000000000000000000000000000000000000000"

/-! ### Modelled bcrypt (spec §4.3) and jsonwebtoken (spec §4.4) -/

/-- Modelled from the spec (§4.3): a bcrypt hash.  bcrypt is an external
library; the model keeps the salt and enough of the input for `compare` to
be decided, giving exactly the spec's contract: verify succeeds precisely on
the password the hash was derived from, and hashes of the same password with
different salts differ. -/
structure BcryptHash where
  salt : Nat
  pw : String
deriving DecidableEq, Repr

/-- Modelled from the spec (§4.3): `bcrypt.hash(password, saltRounds)`; the
per-call random salt is an explicit argument. -/
def bcryptHash (password : String) (salt : Nat) : BcryptHash := ⟨salt, password⟩

/-- Modelled from the spec (§4.3): `bcrypt.compare(password, storedHash)`. -/
def bcryptCompare (password : String) (h : BcryptHash) : Bool := password == h.pw

/-- The `JWTPayload` interface of `authService.ts`. -/
structure JWTPayload where
  userId : String
  email : String
  iat : Nat
  exp : Nat
deriving DecidableEq, Repr

/-- Modelled from the spec (§4.4): the HMAC signature of `jwt.sign`,
idealized as a binding of the secret and the claims. -/
def jwtSignature (secret : String) (p : JWTPayload) : List Nat :=
  (strBytes secret) ++ [0] ++ (strBytes p.userId) ++ [0] ++ (strBytes p.email) ++
    [p.iat, p.exp]

/-- A signed token: claims plus signature (`jwt.sign(payload, secret)`). -/
structure SignedToken where
  payload : JWTPayload
  sig : List Nat
deriving DecidableEq, Repr

def jwtSign (secret : String) (p : JWTPayload) : SignedToken := ⟨p, jwtSignature secret p⟩

/-- Modelled from the spec (§4.4) and jsonwebtoken semantics: `jwt.verify`
checks the signature first (failure: `JsonWebTokenError`), then expiry —
`TokenExpiredError` exactly when `now >= exp`. -/
inductive JwtVerifyError where
  | tokenExpired : JwtVerifyError
  | jsonWebToken : JwtVerifyError
deriving DecidableEq, Repr

def jwtVerify (secret : String) (now : Nat) (t : SignedToken) :
    Except JwtVerifyError JWTPayload :=
  if t.sig ≠ jwtSignature secret t.payload then .error .jsonWebToken
  else if t.payload.exp ≤ now then .error .tokenExpired
  else .ok t.payload

/-- `AuthService.validateToken` (authService.ts lines 148-161): maps
`TokenExpiredError` to `Token expired` and other `JsonWebTokenError`s to
`Invalid token`. -/
def validateToken (secret : String) (now : Nat) (t : SignedToken) :
    Except String JWTPayload :=
  match jwtVerify secret now t with
  | .ok p => .ok p
  | .error .tokenExpired => .error "Token expired"
  | .error .jsonWebToken => .error "Invalid token"

/-! ### The user-record store (`UserRepository.ts`, `User.ts`) -/

/-- Lowercasing as applied by the mongoose `lowercase: true` setter and by
`email.toLowerCase()` in the repository lookups. -/
def toLowerStr (s : String) : String := ⟨s.data.map Char.toLower⟩

/-- A stored user document (models/User.ts `IUser`): the bcrypt password
hash and the encrypted-Aadhaar triple stored as three co-located fields.
(The schema's whitespace-trim setters are omitted: no claim involves them.) -/
structure StoredUser where
  id : String
  email : String
  password : BcryptHash
  firstName : String
  lastName : String
  aadhaarNumber : List Nat
  aadhaarIv : List Nat
  aadhaarAuthTag : List GcmTag
  phone : String
  createdAt : Nat
  updatedAt : Nat
deriving DecidableEq, Repr

/-- `UserRepository.findUserByEmail`: `findOne({ email: email.toLowerCase() })`. -/
def findUserByEmail (store : List StoredUser) (email : String) : Option StoredUser :=
  store.find? (fun u => u.email == toLowerStr email)

/-- `UserRepository.findUserById`. -/
def findUserById (store : List StoredUser) (id : String) : Option StoredUser :=
  store.find? (fun u => u.id == id)

/-- `UserRepository.emailExists`. -/
def emailExists (store : List StoredUser) (email : String) : Bool :=
  (findUserByEmail store email).isSome

/-- The `CreateUserData` interface of models/User.ts. -/
structure CreateUserData where
  email : String
  password : BcryptHash
  firstName : String
  lastName : String
  aadhaarEncryption : EncryptionResult
  phone : String

/-- `UserRepository.createUser` (lines 8-29): the mongoose save applies the
schema's lowercase setter to the email and enforces the unique email index;
a duplicate-key (11000) failure is mapped to `Email already exists`.  `newId`
and `now` model the store-assigned id and timestamps. -/
def createUser (store : List StoredUser) (d : CreateUserData) (newId : String) (now : Nat) :
    Except String (List StoredUser × StoredUser) :=
  let em := toLowerStr d.email
  if store.any (fun u => u.email == em) then .error "Email already exists"
  else
    let u : StoredUser :=
      ⟨newId, em, d.password, d.firstName, d.lastName,
        d.aadhaarEncryption.encryptedData, d.aadhaarEncryption.iv,
        d.aadhaarEncryption.authTag, d.phone, now, now⟩
    .ok (store ++ [u], u)

/-- `UserRepository.updateLastLogin`. -/
def updateLastLogin (store : List StoredUser) (id : String) (now : Nat) : List StoredUser :=
  store.map (fun u => if u.id == id then { u with updatedAt := now } else u)

/-! ### Validation rules (models/User.ts) -/

/-- Character class `[A-Za-z0-9._%+-]` of the email regex's local part. -/
def isEmailLocalChar (c : Char) : Bool :=
  c.isAlpha || c.isDigit || c == '.' || c == '_' || c == '%' || c == '+' || c == '-'

/-- Character class `[A-Za-z0-9.-]` of the email regex's domain part. -/
def isEmailDomainChar (c : Char) : Bool :=
  c.isAlpha || c.isDigit || c == '.' || c == '-'

/-- `[A-Za-z]{2,}$`: a final TLD segment of at least two letters. -/
def tldOk (l : List Char) : Bool := decide (2 ≤ l.length) && l.all Char.isAlpha

/-- Does the domain match `[A-Za-z0-9.-]+\.[A-Za-z]{2,}$`?  Implemented as:
some split point yields a non-empty domain-class prefix, a dot, and a valid
TLD suffix (equivalent to the backtracking regex). -/
def domainOk (l : List Char) : Bool :=
  (List.range l.length).any (fun i =>
    let pre := l.take i
    let rest := l.drop i
    decide (pre ≠ []) && pre.all isEmailDomainChar &&
      (rest.head? == some '.') && tldOk rest.tail)

/-- Does the char list contain two consecutive dots? -/
def hasDoubleDot : List Char → Bool
  | c1 :: c2 :: rest => (c1 == '.' && c2 == '.') || hasDoubleDot (c2 :: rest)
  | _ => false

/-- JS `str.split(sep)` on char lists (structural, so it computes). -/
def splitAtChar (sep : Char) : List Char → List (List Char)
  | [] => [[]]
  | c :: rest =>
    let r := splitAtChar sep rest
    if c == sep then [] :: r
    else
      match r with
      | [] => [[c]]
      | g :: gs => (c :: g) :: gs

/-- JS `str.trim()` on char lists (structural, so it computes). -/
def trimChars (l : List Char) : List Char :=
  ((l.dropWhile Char.isWhitespace).reverse.dropWhile Char.isWhitespace).reverse

/-- `validateEmail` (User.ts): non-empty, no `..`, exactly one `@` with
non-empty sides, and the anchored regex
`^[A-Za-z0-9._%+-]+@[A-Za-z0-9.-]+\.[A-Za-z]{2,}$`. -/
def validateEmail (email : String) : Bool :=
  if email.length == 0 then false
  else if hasDoubleDot email.data then false
  else
    match splitAtChar '@' email.data with
    | [p0, p1] =>
      decide (p0 ≠ []) && decide (p1 ≠ []) && p0.all isEmailLocalChar && domainOk p1
    | _ => false

/-- Character class `[0-9\s\-\(\)]` of the phone regex. -/
def isPhoneBodyChar (c : Char) : Bool :=
  c.isDigit || c.isWhitespace || c == '-' || c == '(' || c == ')'

/-- `validatePhone` (User.ts): `^[+]?[0-9\s\-\(\)]{10,20}$`. -/
def validatePhone (phone : String) : Bool :=
  let body :=
    match phone.data with
    | '+' :: rest => rest
    | l => l
  decide (10 ≤ body.length) && decide (body.length ≤ 20) && body.all isPhoneBodyChar

/-- `validateAadhaar` (User.ts): strip all whitespace, then `^\d{12}$`. -/
def validateAadhaar (aadhaar : String) : Bool :=
  let t := aadhaar.data.filter (fun c => !c.isWhitespace)
  decide (t.length = 12) && t.all Char.isDigit

/-- The `RegisterUserData` interface of authService.ts. -/
structure RegisterUserData where
  email : String
  password : String
  firstName : String
  lastName : String
  aadhaarNumber : String
  phone : String

/-- `validateUserData` (User.ts): collects the error messages; valid iff no
errors.  (`!data.field` falsy checks coincide with the per-field checks on
the empty string.) -/
def validateUserData (d : RegisterUserData) : Bool × List String :=
  let errors :=
    (if !validateEmail d.email then ["Invalid email format"] else []) ++
    (if d.password.length < 8 then ["Password must be at least 8 characters long"] else []) ++
    (if (trimChars d.firstName.data).length == 0 then ["First name is required"] else []) ++
    (if (trimChars d.lastName.data).length == 0 then ["Last name is required"] else []) ++
    (if !validateAadhaar d.aadhaarNumber then
      ["Invalid Aadhaar number format (must be 12 digits)"] else []) ++
    (if !validatePhone d.phone then ["Invalid phone number format"] else [])
  (errors.isEmpty, errors)

/-! ### AuthService (`authService.ts`) -/

structure RegisterResponse where
  success : Bool
  message : String
deriving DecidableEq, Repr

/-- `AuthService.registerUser` (lines 48-96), with the store threaded
explicitly and the external randomness (fresh iv, bcrypt salt, store id,
clock) as arguments.  Steps in source order: validate, email-uniqueness
pre-check, hash, encrypt, persist; the catch block maps store duplicate-key
errors to `Email already exists`, passes validation errors through, and
collapses anything else to `Registration failed`.  The returned store is the
input store on every failure path, since `createUser` is the only write. -/
def registerUser (envKey : Option String) (freshIv : List Nat) (salt : Nat) (newId : String)
    (now : Nat) (store : List StoredUser) (d : RegisterUserData) :
    List StoredUser × Except String RegisterResponse :=
  let v := validateUserData d
  if !v.1 then
    (store, .error ("Validation failed: " ++ String.intercalate ", " v.2))
  else if emailExists store d.email then
    (store, .error "Email already exists")
  else
    let hashedPassword := bcryptHash d.password salt
    match encryptSensitiveData envKey freshIv d.aadhaarNumber with
    | .error _ => (store, .error "Registration failed")
    | .ok enc =>
      match createUser store ⟨d.email, hashedPassword, d.firstName, d.lastName, enc, d.phone⟩
          newId now with
      | .error e =>
        (store,
          if e = "Email already exists" then .error "Email already exists"
          else .error "Registration failed")
      | .ok (store', _) => (store', .ok ⟨true, "User registered successfully"⟩)

/-- The `UserCredentials` interface of models/User.ts. -/
structure UserCredentials where
  email : String
  password : String

/-- The non-sensitive user fields of the `AuthResponse`. -/
structure PublicUser where
  id : String
  email : String
  firstName : String
  lastName : String
deriving DecidableEq, Repr

/-- The `AuthResponse` interface of authService.ts. -/
structure AuthResponse where
  token : SignedToken
  user : PublicUser
deriving DecidableEq, Repr

/-- `AuthService.loginUser` (lines 101-143): email lookup failure and
password mismatch raise the same `Invalid credentials` error; on success a
token with `iat = now`, `exp = now + 24h` is signed and the last-login
timestamp is updated. -/
def loginUser (jwtSecret : String) (now : Nat) (store : List StoredUser)
    (creds : UserCredentials) : Except String (AuthResponse × List StoredUser) :=
  match findUserByEmail store creds.email with
  | none => .error "Invalid credentials"
  | some user =>
    if !bcryptCompare creds.password user.password then .error "Invalid credentials"
    else
      let payload : JWTPayload := ⟨user.id, user.email, now, now + 24 * 60 * 60⟩
      let token := jwtSign jwtSecret payload
      .ok (⟨token, ⟨user.id, user.email, user.firstName, user.lastName⟩⟩,
        updateLastLogin store user.id now)

/-- The body of `AuthService.verifyUserPassword`'s try block (lines 190-204):
missing user raises `User not found`; otherwise the bcrypt comparison result
is returned. -/
def verifyUserPasswordInner (store : List StoredUser) (userId password : String) :
    Except String Bool :=
  match findUserById store userId with
  | none => .error "User not found"
  | some u => .ok (bcryptCompare password u.password)

/-- `AuthService.verifyUserPassword`: the surrounding catch block replaces
any inner error — including `User not found` — with
`Password verification failed`. -/
def verifyUserPassword (store : List StoredUser) (userId password : String) :
    Except String Bool :=
  match verifyUserPasswordInner store userId password with
  | .error _ => .error "Password verification failed"
  | .ok b => .ok b

/-! ### Error handler and step-up route (middleware/errorHandler.ts, profileRoutes) -/

/-- Is `pat` a prefix of `l`? -/
def listPrefix : List Char → List Char → Bool
  | [], _ => true
  | _ :: _, [] => false
  | a :: as, b :: bs => a == b && listPrefix as bs

/-- Is `pat` an infix of `l` (JS `String.prototype.includes`)? -/
def listInfix (pat : List Char) : List Char → Bool
  | [] => listPrefix pat []
  | l@(_ :: rest) => listPrefix pat l || listInfix pat rest

def strIncludes (s pat : String) : Bool := listInfix pat.data s.data

/-- `errorHandler` (middleware/errorHandler.ts): the HTTP status chosen for
an error message that reaches the generic handler; none of the service
errors carry a `statusCode`, so the default is 500. -/
def errorHandlerStatus (msg : String) : Nat :=
  if strIncludes msg "Validation failed" then 400
  else if strIncludes msg "Email already exists" then 409
  else if strIncludes msg "Invalid credentials" then 401
  else if strIncludes msg "Token expired" || strIncludes msg "Invalid token" then 401
  else if strIncludes msg "Unauthorized" then 401
  else if strIncludes msg "Rate limit exceeded" then 429
  else 500

/-- `POST /api/profile/verify-password` (profileRoutes, after the auth
middleware has attached `userId`): 400 on missing password, 401 on a false
verification, 200 on success; the catch maps exactly the message
`User not found` to 404 and forwards anything else to `errorHandler`.
Returns (status, message). -/
def verifyPasswordRoute (store : List StoredUser) (userId password : String) :
    Nat × String :=
  if password = "" then (400, "Password is required")
  else
    match verifyUserPassword store userId password with
    | .ok true => (200, "Password verified successfully")
    | .ok false => (401, "Incorrect password. Please try again.")
    | .error e =>
      if e = "User not found" then (404, "User not found") else (errorHandlerStatus e, e)

/-! ### Profile access (`UserRepository.getUserProfile`/`updateUserProfile`,
ProfileService) -/

/-- The `UserProfile` interface of models/User.ts (`aadhaarNumber` is the
decrypted plaintext). -/
structure UserProfile where
  id : String
  email : String
  firstName : String
  lastName : String
  aadhaarNumber : String
  phone : String
  createdAt : Nat
  updatedAt : Nat
deriving DecidableEq, Repr

/-- `UserRepository.getUserProfile`: `none` when the user does not exist;
decryption failure surfaces as `Failed to decrypt user profile: ...`. -/
def getUserProfile (envKey : Option String) (store : List StoredUser) (id : String) :
    Except String (Option UserProfile) :=
  match findUserById store id with
  | none => .ok none
  | some u =>
    match decryptSensitiveData envKey ⟨u.aadhaarNumber, u.aadhaarIv, u.aadhaarAuthTag⟩ with
    | .error e => .error ("Failed to decrypt user profile: " ++ e)
    | .ok pt =>
      .ok (some ⟨u.id, u.email, u.firstName, u.lastName, pt, u.phone, u.createdAt, u.updatedAt⟩)

/-- The update payload of `UserRepository.updateUserProfile` /
`ProfileService.ProfileUpdateData`. -/
structure ProfileUpdateData where
  firstName : Option String
  lastName : Option String
  phone : Option String
  aadhaarNumber : Option String

/-- How `findByIdAndUpdate` applies the collected `updateFields` to the
matching document: provided fields replace the old values; when
`aadhaarNumber` is updated, all three triple fields are set from the one
fresh `EncryptionResult`; `updatedAt` is always refreshed. -/
def applyUpdateFields (upd : ProfileUpdateData) (encOpt : Option EncryptionResult)
    (now : Nat) (u : StoredUser) : StoredUser :=
  { u with
    firstName := upd.firstName.getD u.firstName
    lastName := upd.lastName.getD u.lastName
    phone := upd.phone.getD u.phone
    aadhaarNumber := (encOpt.map (fun e => e.encryptedData)).getD u.aadhaarNumber
    aadhaarIv := (encOpt.map (fun e => e.iv)).getD u.aadhaarIv
    aadhaarAuthTag := (encOpt.map (fun e => e.authTag)).getD u.aadhaarAuthTag
    updatedAt := now }

/-- `UserRepository.updateUserProfile` (lines 115-161): a replaced
`aadhaarNumber` is freshly encrypted while building `updateFields` (before
the store write); `findByIdAndUpdate` then applies all fields in one store
update; a missing user yields `none`; the refreshed profile is re-read and
decrypted; any error is wrapped as `Failed to update user profile: ...`. -/
def repoUpdateUserProfile (envKey : Option String) (freshIv : List Nat) (now : Nat)
    (store : List StoredUser) (id : String) (upd : ProfileUpdateData) :
    Except String (List StoredUser × Option UserProfile) :=
  let encStep : Except String (Option EncryptionResult) :=
    match upd.aadhaarNumber with
    | none => .ok none
    | some a =>
      match encryptSensitiveData envKey freshIv a with
      | .error e => .error e
      | .ok enc => .ok (some enc)
  match encStep with
  | .error e => .error ("Failed to update user profile: " ++ e)
  | .ok encOpt =>
    if (findUserById store id).isSome then
      let store' := store.map (fun u => if u.id == id then applyUpdateFields upd encOpt now u else u)
      match getUserProfile envKey store' id with
      | .error e => .error ("Failed to update user profile: " ++ e)
      | .ok p => .ok (store', p)
    else .ok (store, none)

/-- `ProfileService.updateUserProfile` (unnamed part, lines 47-87): field
checks — names must be non-empty after trimming; phone and aadhaar format
checks run ONLY when the trimmed value is non-empty; then the repository
update; `none` becomes `User profile not found`. -/
def profileUpdateUserProfile (envKey : Option String) (freshIv : List Nat) (now : Nat)
    (store : List StoredUser) (userId : String) (upd : ProfileUpdateData) :
    Except String (List StoredUser × UserProfile) :=
  if (upd.firstName.map (fun s => (trimChars s.data).length == 0)).getD false then
    .error "First name cannot be empty"
  else if (upd.lastName.map (fun s => (trimChars s.data).length == 0)).getD false then
    .error "Last name cannot be empty"
  else if (upd.phone.map
      (fun s => decide (0 < (trimChars s.data).length) && !validatePhone s)).getD false then
    .error "Invalid phone number format"
  else if (upd.aadhaarNumber.map
      (fun s => decide (0 < (trimChars s.data).length) && !validateAadhaar s)).getD false then
    .error "Aadhaar number must be exactly 12 digits"
  else
    match repoUpdateUserProfile envKey freshIv now store userId upd with
    | .error e => .error e
    | .ok (_, none) => .error "User profile not found"
    | .ok (store', some p) => .ok (store', p)

/-! ### Claims C3 and C4 -/

/-- A concrete stored user for witnesses (the triple is the C1 witness
encryption of `"hello"` under the all-zero key and iv). -/
def demoUser : StoredUser :=
  ⟨"u1", "alice@example.com", bcryptHash "password123" 3, "Alice", "Smith",
    [109, 65, 47, 14, 238], List.replicate 16 0,
    [⟨List.replicate 32 0, List.replicate 16 0, aadConst, [109, 65, 47, 14, 238]⟩],
    "9876543210", 100, 100⟩

def demoPayload : JWTPayload := ⟨"u1", "alice@example.com", 1000, 87400⟩

def demoToken : SignedToken := jwtSign "jwtsecret" demoPayload

def demoResp : AuthResponse :=
  ⟨demoToken, ⟨"u1", "alice@example.com", "Alice", "Smith"⟩⟩

/-- A valid fresh registration payload used by witnesses. -/
def bobData : RegisterUserData :=
  ⟨"bob@example.com", "password123", "Bob", "Jones", "123456789012", "9876543210"⟩

/-- An invalid registration payload (password too short). -/
def bobShortData : RegisterUserData :=
  ⟨"bob@example.com", "short", "Bob", "Jones", "123456789012", "9876543210"⟩

/-! ## Theorems -/

theorem bytesStr_strBytes (s : String) : bytesStr (strBytes s) = s := by
  cases s with
  | mk data =>
    simp [bytesStr, strBytes, List.map_map, Function.comp_def]

theorem strBytes_ne_nil {s : String} (h : s ≠ "") : strBytes s ≠ [] := by
  intro hb
  apply h
  cases s with
  | mk data =>
    simp [strBytes] at hb
    simp [hb]

theorem hexDecodePairs_length : ∀ l : List Char, (hexDecodePairs l).length = l.length / 2
  | [] => rfl
  | [_] => by simp [hexDecodePairs]
  | c1 :: c2 :: rest => by
    simp [hexDecodePairs, hexDecodePairs_length rest]
    omega

theorem sha256Model_length (s : String) : (sha256Model s).length = 32 := by
  simp [sha256Model]

theorem xorKs_xorKs (key iv : List Nat) :
    ∀ (i : Nat) (l : List Nat), xorKs key iv i (xorKs key iv i l) = l
  | _, [] => rfl
  | i, b :: rest => by
    simp [xorKs, Nat.xor_cancel_right, xorKs_xorKs key iv (i + 1) rest]

theorem xorKs_length (key iv : List Nat) :
    ∀ (i : Nat) (l : List Nat), (xorKs key iv i l).length = l.length
  | _, [] => rfl
  | i, _ :: rest => by simp [xorKs, xorKs_length key iv (i + 1) rest]

/-! ### Helper facts about the encryption engine -/

theorem xorKs_ne_nil {key iv : List Nat} {s : String} (hs : s ≠ "") :
    xorKs key iv 0 (strBytes s) ≠ [] := by
  intro h
  have hlen := xorKs_length key iv 0 (strBytes s)
  rw [h] at hlen
  exact strBytes_ne_nil hs (List.eq_nil_of_length_eq_zero hlen.symm)

theorem iv_ne_nil {iv : List Nat} (hiv : iv.length = 16) : iv ≠ [] := by
  intro h
  rw [h] at hiv
  simp at hiv

/-- C1: for every non-empty string `s`, encrypting `s` with
`encryptSensitiveData` under a fixed configured key and decrypting the
resulting (encryptedData, iv, authTag) triple with `decryptSensitiveData`
under the same key returns exactly `s`. -/
theorem C1_encrypt_decrypt_roundtrip (envKey : Option String) (key iv : List Nat) (s : String)
    (hs : s ≠ "") (hiv : iv.length = 16) (hk : getEncryptionKey envKey = .ok key)
    (er : EncryptionResult) (henc : encryptSensitiveData envKey iv s = .ok er) :
    decryptSensitiveData envKey er = .ok s := by
  simp only [encryptSensitiveData, if_neg hs, hk] at henc
  simp only [Except.ok.injEq] at henc
  subst henc
  simp only [decryptSensitiveData, hk]
  rw [if_neg (by simp [xorKs_ne_nil hs, iv_ne_nil hiv])]
  simp [xorKs_xorKs, bytesStr_strBytes]

/-- Witness for C1 at a concrete key, iv and plaintext. -/
theorem C1_witness :
    decryptSensitiveData (some zeros64)
      ⟨[109, 65, 47, 14, 238], List.replicate 16 0,
        [⟨List.replicate 32 0, List.replicate 16 0, aadConst, [109, 65, 47, 14, 238]⟩]⟩ =
      .ok "hello" :=
  C1_encrypt_decrypt_roundtrip (some zeros64) (List.replicate 32 0) (List.replicate 16 0)
    "hello" (by decide) (by simp) (by rfl) _ (by rfl)

/-- C2: decryption fails closed: missing/empty components, an altered
ciphertext, iv or authTag, and decryption under a different configured key all
yield a `Decryption failed` error; a plaintext is produced only when the
stored tag authenticates exactly the stored iv and ciphertext under the
configured key (so no partial/garbage plaintext on tag failure). -/
theorem C2_decrypt_fails_closed (envKey : Option String) (key iv : List Nat) (s : String)
    (er : EncryptionResult) (hs : s ≠ "") (hiv : iv.length = 16)
    (hk : getEncryptionKey envKey = .ok key)
    (henc : encryptSensitiveData envKey iv s = .ok er) :
    (∀ er' : EncryptionResult,
        er'.encryptedData = [] ∨ er'.iv = [] ∨ er'.authTag = [] →
        ∃ msg, decryptSensitiveData envKey er' = .error msg) ∧
    (∀ ct', ct' ≠ er.encryptedData →
        ∃ msg, decryptSensitiveData envKey ⟨ct', er.iv, er.authTag⟩ = .error msg) ∧
    (∀ iv', iv' ≠ er.iv →
        ∃ msg, decryptSensitiveData envKey ⟨er.encryptedData, iv', er.authTag⟩ = .error msg) ∧
    (∀ tag', tag' ≠ er.authTag →
        ∃ msg, decryptSensitiveData envKey ⟨er.encryptedData, er.iv, tag'⟩ = .error msg) ∧
    (∀ (envKey' : Option String) (key' : List Nat),
        getEncryptionKey envKey' = .ok key' → key' ≠ key →
        ∃ msg, decryptSensitiveData envKey' er = .error msg) ∧
    (∀ (er' : EncryptionResult) (pt : String),
        decryptSensitiveData envKey er' = .ok pt →
        er'.authTag = [⟨key, er'.iv, aadConst, er'.encryptedData⟩]) := by
  simp only [encryptSensitiveData, if_neg hs, hk] at henc
  simp only [Except.ok.injEq] at henc
  subst henc
  have hct : xorKs key iv 0 (strBytes s) ≠ [] := xorKs_ne_nil hs
  have hivne : iv ≠ [] := iv_ne_nil hiv
  refine ⟨?_, ?_, ?_, ?_, ?_, ?_⟩
  · intro er' hmiss
    exact ⟨"Decryption failed: Invalid input: missing required encryption components",
      by simp [decryptSensitiveData, hmiss]⟩
  · intro ct' hne
    have hne' : ct' ≠ xorKs key iv 0 (strBytes s) := hne
    by_cases hc : ct' = []
    · exact ⟨"Decryption failed: Invalid input: missing required encryption components",
        by simp [decryptSensitiveData, hc]⟩
    · refine ⟨"Decryption failed: Unsupported state or unable to authenticate data", ?_⟩
      simp only [decryptSensitiveData, hk]
      rw [if_neg (by simp [hc, hivne])]
      rw [if_neg (by simp [GcmTag.mk.injEq]; intro h; exact absurd h.symm hne')]
  · intro iv' hne
    have hne' : iv' ≠ iv := hne
    by_cases hc : iv' = []
    · exact ⟨"Decryption failed: Invalid input: missing required encryption components",
        by simp [decryptSensitiveData, hc]⟩
    · refine ⟨"Decryption failed: Unsupported state or unable to authenticate data", ?_⟩
      simp only [decryptSensitiveData, hk]
      rw [if_neg (by simp [hc, hct])]
      rw [if_neg (by simp [GcmTag.mk.injEq]; intro h; exact absurd h.symm hne')]
  · intro tag' hne
    have hne' : tag' ≠ [⟨key, iv, aadConst, xorKs key iv 0 (strBytes s)⟩] := hne
    by_cases hc : tag' = []
    · exact ⟨"Decryption failed: Invalid input: missing required encryption components",
        by simp [decryptSensitiveData, hc]⟩
    · refine ⟨"Decryption failed: Unsupported state or unable to authenticate data", ?_⟩
      simp only [decryptSensitiveData, hk]
      rw [if_neg (by simp [hc, hct, hivne])]
      rw [if_neg (by intro h; exact hne' h)]
  · intro envKey' key' hk' hkne
    refine ⟨"Decryption failed: Unsupported state or unable to authenticate data", ?_⟩
    simp only [decryptSensitiveData, hk']
    rw [if_neg (by simp [hct, hivne])]
    rw [if_neg (by simp [GcmTag.mk.injEq]; intro h; exact absurd h.symm hkne)]
  · intro er' pt h
    simp only [decryptSensitiveData, hk] at h
    split at h
    · exact absurd h (by simp)
    · split at h
      · assumption
      · exact absurd h (by simp)

/-- Witness for C2: concrete missing-component, tampered-ciphertext,
tampered-iv, tampered-tag and wrong-key decryptions all fail. -/
theorem C2_witness :
    (∃ msg, decryptSensitiveData (some zeros64) ⟨[], [], []⟩ = .error msg) ∧
    (∃ msg, decryptSensitiveData (some zeros64)
        ⟨[1, 2, 3], List.replicate 16 0,
          [⟨List.replicate 32 0, List.replicate 16 0, aadConst, [109, 65, 47, 14, 238]⟩]⟩ =
        .error msg) ∧
    (∃ msg, decryptSensitiveData (some zeros64)
        ⟨[109, 65, 47, 14, 238], List.replicate 16 1,
          [⟨List.replicate 32 0, List.replicate 16 0, aadConst, [109, 65, 47, 14, 238]⟩]⟩ =
        .error msg) ∧
    (∃ msg, decryptSensitiveData (some zeros64)
        ⟨[109, 65, 47, 14, 238], List.replicate 16 0, []⟩ = .error msg) ∧
    (∃ msg, decryptSensitiveData (some "otherkey")
        ⟨[109, 65, 47, 14, 238], List.replicate 16 0,
          [⟨List.replicate 32 0, List.replicate 16 0, aadConst, [109, 65, 47, 14, 238]⟩]⟩ =
        .error msg) := by
  have H := C2_decrypt_fails_closed (some zeros64) (List.replicate 32 0) (List.replicate 16 0)
    "hello" ⟨[109, 65, 47, 14, 238], List.replicate 16 0,
      [⟨List.replicate 32 0, List.replicate 16 0, aadConst, [109, 65, 47, 14, 238]⟩]⟩
    (by decide) (by simp) (by rfl) (by rfl)
  exact ⟨H.1 ⟨[], [], []⟩ (by simp),
    H.2.1 [1, 2, 3] (by decide),
    H.2.2.1 (List.replicate 16 1) (by decide),
    H.1 ⟨[109, 65, 47, 14, 238], List.replicate 16 0, []⟩ (by simp),
    H.2.2.2.2.1 (some "otherkey") (sha256Model "otherkey") (by rfl) (by decide)⟩

theorem string_length_data (s : String) : s.length = s.data.length := rfl

/-- C8 (amended): a 64-hex-character secret is decoded directly to the
32-byte key; any other non-empty secret is hashed to a 32-byte key;
derivation is a pure function of the secret; with no secret configured,
service construction succeeds and the `ENCRYPTION_KEY` error is raised
lazily inside the encrypt/decrypt call itself. -/
theorem C8_key_derivation_contract :
    (∀ k : String, k.length = 64 → k.data.all isHexDigitChar →
        getEncryptionKey (some k) = .ok (hexDecodePairs k.data) ∧
        (hexDecodePairs k.data).length = 32) ∧
    (∀ k : String, k ≠ "" → ¬(k.length = 64 ∧ k.data.all isHexDigitChar) →
        getEncryptionKey (some k) = .ok (sha256Model k) ∧ (sha256Model k).length = 32) ∧
    getEncryptionKey none = .error "ENCRYPTION_KEY environment variable is not set" ∧
    encryptionServiceConstructor none = .ok () ∧
    (∀ (iv : List Nat) (s : String), s ≠ "" →
        encryptSensitiveData none iv s =
          .error "Encryption failed: ENCRYPTION_KEY environment variable is not set") ∧
    (∀ er : EncryptionResult, er.encryptedData ≠ [] → er.iv ≠ [] → er.authTag ≠ [] →
        decryptSensitiveData none er =
          .error "Decryption failed: ENCRYPTION_KEY environment variable is not set") := by
  refine ⟨?_, ?_, rfl, rfl, ?_, ?_⟩
  · intro k hlen hhex
    have hne : k ≠ "" := by
      intro h
      rw [h] at hlen
      simp at hlen
    refine ⟨?_, ?_⟩
    · simp [getEncryptionKey, hne, hlen, hhex]
    · rw [hexDecodePairs_length, ← string_length_data, hlen]
  · intro k hne hnot
    refine ⟨?_, sha256Model_length k⟩
    simp only [getEncryptionKey, if_neg hne]
    rw [if_neg (by simpa using hnot)]
  · intro iv s hs
    simp [encryptSensitiveData, hs, getEncryptionKey]
  · intro er h1 h2 h3
    simp [decryptSensitiveData, h1, h2, h3, getEncryptionKey]

/-- Counterexample to C8 as stated: with no configured secret, constructing
the encryption service succeeds (no startup failure), and the error is
raised only inside the encrypt call of a request. -/
theorem C8_counterexample :
    encryptionServiceConstructor none = .ok () ∧
    encryptSensitiveData none [0] "x" =
      .error "Encryption failed: ENCRYPTION_KEY environment variable is not set" ∧
    decryptSensitiveData none ⟨[1], [2], [⟨[], [], aadConst, []⟩]⟩ =
      .error "Decryption failed: ENCRYPTION_KEY environment variable is not set" :=
  ⟨rfl, rfl, rfl⟩

/-- Witness for C8 at concrete secrets: the 64-hex fast path and the hashed
path both produce 32-byte keys. -/
theorem C8_witness :
    (getEncryptionKey (some zeros64) = .ok (hexDecodePairs zeros64.data) ∧
      (hexDecodePairs zeros64.data).length = 32) ∧
    (getEncryptionKey (some "shortsecret") = .ok (sha256Model "shortsecret") ∧
      (sha256Model "shortsecret").length = 32) :=
  ⟨C8_key_derivation_contract.1 zeros64 (by decide) (by decide),
    C8_key_derivation_contract.2.1 "shortsecret" (by decide) (by decide)⟩

/-- C3: login with an unknown email and login with a known email but a
failing bcrypt comparison return the literally identical
`Invalid credentials` error. -/
theorem C3_login_enumeration_resistance (jwtSecret : String) (now : Nat)
    (store : List StoredUser) (creds : UserCredentials) :
    (findUserByEmail store creds.email = none →
      loginUser jwtSecret now store creds = .error "Invalid credentials") ∧
    (∀ u : StoredUser, findUserByEmail store creds.email = some u →
      bcryptCompare creds.password u.password = false →
      loginUser jwtSecret now store creds = .error "Invalid credentials") := by
  constructor
  · intro h
    simp [loginUser, h]
  · intro u h hcmp
    simp [loginUser, h, hcmp]

/-- Witness for C3: unknown email and wrong password at a concrete store. -/
theorem C3_witness :
    loginUser "jwtsecret" 1000 [demoUser] ⟨"bob@example.com", "whatever"⟩ =
      .error "Invalid credentials" ∧
    loginUser "jwtsecret" 1000 [demoUser] ⟨"alice@example.com", "wrongpass"⟩ =
      .error "Invalid credentials" :=
  ⟨(C3_login_enumeration_resistance "jwtsecret" 1000 [demoUser]
      ⟨"bob@example.com", "whatever"⟩).1 (by rfl),
    (C3_login_enumeration_resistance "jwtsecret" 1000 [demoUser]
      ⟨"alice@example.com", "wrongpass"⟩).2 demoUser (by rfl) (by rfl)⟩

/-- C4: a token issued by `loginUser` at time `now` expires at
`now + 24h`; `validateToken` succeeds strictly before that instant, returns
`Token expired` at or after it, and returns the distinct `Invalid token`
error for a token whose signature does not verify. -/
theorem C4_token_expiry_boundary (jwtSecret : String) (now : Nat) (store : List StoredUser)
    (creds : UserCredentials) (resp : AuthResponse) (store' : List StoredUser)
    (h : loginUser jwtSecret now store creds = .ok (resp, store')) :
    resp.token.payload.exp = now + 24 * 60 * 60 ∧
    (∀ v, v < now + 24 * 60 * 60 →
      validateToken jwtSecret v resp.token = .ok resp.token.payload) ∧
    (∀ v, now + 24 * 60 * 60 ≤ v →
      validateToken jwtSecret v resp.token = .error "Token expired") ∧
    (∀ (v : Nat) (t : SignedToken), t.sig ≠ jwtSignature jwtSecret t.payload →
      validateToken jwtSecret v t = .error "Invalid token") ∧
    (Except.error "Token expired" ≠ (Except.error "Invalid token" : Except String JWTPayload)) := by
  unfold loginUser at h
  split at h
  · exact absurd h (by simp)
  · rename_i user hf
    split at h
    · exact absurd h (by simp)
    · simp only [Except.ok.injEq, Prod.mk.injEq] at h
      obtain ⟨hresp, _⟩ := h
      subst hresp
      refine ⟨rfl, ?_, ?_, ?_, by simp⟩
      · intro v hv
        have hnle : ¬(now + 24 * 60 * 60 ≤ v) := by omega
        simp [validateToken, jwtVerify, jwtSign, hnle]
      · intro v hv
        simp [validateToken, jwtVerify, jwtSign, hv]
      · intro v t ht
        simp [validateToken, jwtVerify, ht]

/-- Witness for C4 at a concrete issued token: valid one second before
expiry, expired at expiry, and a tampered signature is `Invalid token`. -/
theorem C4_witness :
    validateToken "jwtsecret" 87399 demoToken = .ok demoPayload ∧
    validateToken "jwtsecret" 87400 demoToken = .error "Token expired" ∧
    validateToken "jwtsecret" 1000 ⟨demoPayload, [9]⟩ = .error "Invalid token" := by
  have H := C4_token_expiry_boundary "jwtsecret" 1000 [demoUser]
    ⟨"alice@example.com", "password123"⟩ demoResp (updateLastLogin [demoUser] "u1" 1000)
    (by rfl)
  exact ⟨H.2.1 87399 (by decide), H.2.2.1 87400 (by decide),
    H.2.2.2.1 1000 ⟨demoPayload, [9]⟩ (by decide)⟩

/-! ### Claims C5 and C6 -/

theorem validateAadhaar_ne_empty {s : String} (h : validateAadhaar s = true) : s ≠ "" := by
  intro he
  subst he
  exact absurd h (by decide)

theorem validateUserData_aadhaar {d : RegisterUserData}
    (h : (validateUserData d).1 = true) : validateAadhaar d.aadhaarNumber = true := by
  by_contra hn
  rw [Bool.not_eq_true] at hn
  simp [validateUserData, hn] at h

theorem findUserByEmail_eq_none {store : List StoredUser} {email : String}
    (h : emailExists store email = false) : findUserByEmail store email = none := by
  unfold emailExists at h
  cases hf : findUserByEmail store email with
  | none => rfl
  | some u => rw [hf] at h; simp at h

theorem any_email_eq_false {store : List StoredUser} {email : String}
    (h : emailExists store email = false) :
    store.any (fun u => u.email == toLowerStr email) = false := by
  have hn := findUserByEmail_eq_none h
  unfold findUserByEmail at hn
  rw [List.find?_eq_none] at hn
  rw [List.any_eq_false]
  exact hn

/-- C5: `registerUser` validates, pre-checks email uniqueness, hashes,
encrypts and only then persists; every failure leaves the store untouched
(`createUser` is the single commit point), the ordering is visible in which
error wins, and the success path appends exactly one complete record. -/
theorem C5_registration_atomicity (envKey : Option String) (freshIv : List Nat) (salt : Nat)
    (newId : String) (now : Nat) (store : List StoredUser) (d : RegisterUserData) :
    (∀ e, (registerUser envKey freshIv salt newId now store d).2 = .error e →
      (registerUser envKey freshIv salt newId now store d).1 = store) ∧
    ((validateUserData d).1 = false →
      registerUser envKey freshIv salt newId now store d =
        (store, .error ("Validation failed: " ++
          String.intercalate ", " (validateUserData d).2))) ∧
    ((validateUserData d).1 = true → emailExists store d.email = true →
      registerUser envKey freshIv salt newId now store d =
        (store, .error "Email already exists")) ∧
    (∀ key, (validateUserData d).1 = true → emailExists store d.email = false →
      getEncryptionKey envKey = .ok key →
      ∃ enc : EncryptionResult,
        encryptSensitiveData envKey freshIv d.aadhaarNumber = .ok enc ∧
        registerUser envKey freshIv salt newId now store d =
          (store ++ [⟨newId, toLowerStr d.email, bcryptHash d.password salt, d.firstName,
            d.lastName, enc.encryptedData, enc.iv, enc.authTag, d.phone, now, now⟩],
            .ok ⟨true, "User registered successfully"⟩)) := by
  refine ⟨?_, ?_, ?_, ?_⟩
  · intro e herr
    unfold registerUser at herr ⊢
    by_cases hv : (validateUserData d).1 = true
    · simp only [hv, Bool.not_true, Bool.false_eq_true, if_false] at herr ⊢
      by_cases hee : emailExists store d.email = true
      · simp [hee]
      · rw [Bool.not_eq_true] at hee
        simp only [hee, Bool.false_eq_true, if_false] at herr ⊢
        cases henc : encryptSensitiveData envKey freshIv d.aadhaarNumber with
        | error e2 => simp [henc]
        | ok enc =>
          simp only [henc] at herr ⊢
          cases hcr : createUser store
              ⟨d.email, bcryptHash d.password salt, d.firstName, d.lastName, enc, d.phone⟩
              newId now with
          | error e3 => simp [hcr]
          | ok pr =>
            simp only [hcr] at herr
            simp at herr
    · rw [Bool.not_eq_true] at hv
      simp [hv]
  · intro hv
    simp [registerUser, hv]
  · intro hv hee
    simp [registerUser, hv, hee]
  · intro key hv hee hk
    have hane := validateAadhaar_ne_empty (validateUserData_aadhaar hv)
    refine ⟨⟨xorKs key freshIv 0 (strBytes d.aadhaarNumber), freshIv,
      [⟨key, freshIv, aadConst, xorKs key freshIv 0 (strBytes d.aadhaarNumber)⟩]⟩, ?_, ?_⟩
    · simp [encryptSensitiveData, hane, hk]
    · simp [registerUser, hv, hee, encryptSensitiveData, hane, hk, createUser,
        any_email_eq_false hee]

/-- Witness for C5: a failed registration leaves the concrete store
unchanged; a valid one appends exactly the new record. -/
theorem C5_witness :
    registerUser (some zeros64) (List.replicate 16 0) 3 "u2" 500 [demoUser] bobShortData =
      ([demoUser], .error ("Validation failed: " ++
        String.intercalate ", " (validateUserData bobShortData).2)) ∧
    (∃ enc : EncryptionResult,
      encryptSensitiveData (some zeros64) (List.replicate 16 0) bobData.aadhaarNumber =
        .ok enc ∧
      registerUser (some zeros64) (List.replicate 16 0) 3 "u2" 500 [demoUser] bobData =
        ([demoUser] ++ [⟨"u2", toLowerStr bobData.email, bcryptHash bobData.password 3,
          bobData.firstName, bobData.lastName, enc.encryptedData, enc.iv, enc.authTag,
          bobData.phone, 500, 500⟩],
          .ok ⟨true, "User registered successfully"⟩)) :=
  ⟨(C5_registration_atomicity (some zeros64) (List.replicate 16 0) 3 "u2" 500 [demoUser]
      bobShortData).2.1 (by decide),
    (C5_registration_atomicity (some zeros64) (List.replicate 16 0) 3 "u2" 500 [demoUser]
      bobData).2.2.2 (List.replicate 32 0) (by decide) (by rfl) (by rfl)⟩

/-- C6: when a user with the (case-insensitively) same email is already
stored, a well-formed second registration fails with `Email already exists`
— both at the service pre-check and at the store's unique-constraint
(`createUser`) — and the store, hence the first user's record, is unchanged. -/
theorem C6_duplicate_email (envKey : Option String) (freshIv : List Nat) (salt : Nat)
    (newId : String) (now : Nat) (store : List StoredUser) (d : RegisterUserData)
    (u : StoredUser) (hu : u ∈ store) (hemail : u.email = toLowerStr d.email)
    (hv : (validateUserData d).1 = true) :
    registerUser envKey freshIv salt newId now store d =
      (store, .error "Email already exists") ∧
    (∀ cd : CreateUserData, cd.email = d.email →
      createUser store cd newId now = .error "Email already exists") := by
  have hex : emailExists store d.email = true := by
    simp only [emailExists, findUserByEmail, List.find?_isSome]
    exact ⟨u, hu, by simp [hemail]⟩
  constructor
  · simp [registerUser, hv, hex]
  · intro cd hcd
    have hany : store.any (fun v => v.email == toLowerStr cd.email) = true := by
      rw [List.any_eq_true]
      exact ⟨u, hu, by simp [hemail, hcd]⟩
    simp [createUser, hany]

/-- Witness for C6: re-registering `demoUser`'s email in different case
fails at both layers and leaves the store as it was. -/
theorem C6_witness :
    registerUser (some zeros64) (List.replicate 16 0) 3 "u2" 500 [demoUser]
      ⟨"Alice@Example.COM", "password123", "Al", "Ice", "123456789012", "9876543210"⟩ =
      ([demoUser], .error "Email already exists") ∧
    createUser [demoUser]
      ⟨"Alice@Example.COM", bcryptHash "password123" 3, "Al", "Ice",
        ⟨[1], [2], [⟨[], [], aadConst, []⟩]⟩, "9876543210"⟩ "u2" 500 =
      .error "Email already exists" := by
  have H := C6_duplicate_email (some zeros64) (List.replicate 16 0) 3 "u2" 500 [demoUser]
    ⟨"Alice@Example.COM", "password123", "Al", "Ice", "123456789012", "9876543210"⟩
    demoUser (by simp) (by rfl) (by decide)
  exact ⟨H.1, H.2 ⟨"Alice@Example.COM", bcryptHash "password123" 3, "Al", "Ice",
    ⟨[1], [2], [⟨[], [], aadConst, []⟩]⟩, "9876543210"⟩ rfl⟩

/-! ### Claim C7 -/

/-- C7 (evidence of the code bug): with no stored user for the id, the
try-block raises `User not found`, but `verifyUserPassword`'s catch replaces
it with `Password verification failed`, so the route's `User not found` →
404 branch is dead and the request falls through to the generic error
handler as a 500 — the spec's 404 "user not found" never happens.  The
wrong-password half of the claim does hold (`.ok false` → 401), and a
correct password verifies. -/
theorem C7_user_not_found_is_rewrapped :
    verifyUserPasswordInner [] "u1" "pw" = .error "User not found" ∧
    verifyUserPassword [] "u1" "pw" = .error "Password verification failed" ∧
    verifyPasswordRoute [] "u1" "pw" = (500, "Password verification failed") ∧
    verifyPasswordRoute [demoUser] "u1" "wrongpass" =
      (401, "Incorrect password. Please try again.") ∧
    verifyPasswordRoute [demoUser] "u1" "password123" =
      (200, "Password verified successfully") :=
  ⟨rfl, rfl, by decide, by decide, by decide⟩

/-! ### Helper lemmas for the profile claims -/

theorem encrypt_eq (envKey : Option String) (key iv : List Nat) (s : String)
    (hs : s ≠ "") (hk : getEncryptionKey envKey = .ok key) :
    encryptSensitiveData envKey iv s =
      .ok ⟨xorKs key iv 0 (strBytes s), iv,
        [⟨key, iv, aadConst, xorKs key iv 0 (strBytes s)⟩]⟩ := by
  simp [encryptSensitiveData, hs, hk]

theorem decrypt_encrypt_eq (envKey : Option String) (key iv : List Nat) (s : String)
    (hs : s ≠ "") (hiv : iv.length = 16) (hk : getEncryptionKey envKey = .ok key) :
    decryptSensitiveData envKey
      ⟨xorKs key iv 0 (strBytes s), iv,
        [⟨key, iv, aadConst, xorKs key iv 0 (strBytes s)⟩]⟩ = .ok s := by
  simp only [decryptSensitiveData, hk]
  rw [if_neg (by simp [xorKs_ne_nil hs, iv_ne_nil hiv])]
  simp [xorKs_xorKs, bytesStr_strBytes]

theorem applyUpdateFields_id (upd : ProfileUpdateData) (encOpt : Option EncryptionResult)
    (now : Nat) (u : StoredUser) : (applyUpdateFields upd encOpt now u).id = u.id := rfl

theorem findUserById_map_update (store : List StoredUser) (id : String)
    (g : StoredUser → StoredUser) (hg : ∀ x, (g x).id = x.id)
    (u : StoredUser) (h : findUserById store id = some u) :
    findUserById (store.map (fun x => if x.id == id then g x else x)) id = some (g u) := by
  induction store with
  | nil => simp [findUserById] at h
  | cons a rest ih =>
    simp only [findUserById, List.map_cons, List.find?_cons] at h ⊢
    by_cases ha : (a.id == id) = true
    · simp only [ha, if_true] at h ⊢
      obtain rfl : a = u := by simpa using h
      simp [hg, ha]
    · have ha' : (a.id == id) = false := by
        revert ha; cases (a.id == id) <;> simp
      simp only [ha', Bool.false_eq_true, if_false] at h ⊢
      exact ih h

theorem mem_map_update {store : List StoredUser} {id : String}
    {f : StoredUser → StoredUser} {v : StoredUser} (hv : v ∈ store) (hne : v.id ≠ id) :
    v ∈ store.map (fun x => if x.id == id then f x else x) := by
  have heq : (fun x => if x.id == id then f x else x) v = v := by simp [hne]
  rw [← heq]
  exact List.mem_map_of_mem _ hv

/-- After an aadhaar-replacing update is applied to the store, reading the
profile back decrypts the fresh triple to the new value. -/
theorem getUserProfile_after_aadhaar_update (envKey : Option String) (key freshIv : List Nat)
    (now : Nat) (store : List StoredUser) (id : String) (u : StoredUser)
    (upd : ProfileUpdateData) (a : String)
    (hk : getEncryptionKey envKey = .ok key) (hiv : freshIv.length = 16)
    (hfind : findUserById store id = some u) (hane : a ≠ "") :
    getUserProfile envKey
      (store.map (fun x => if x.id == id then
        applyUpdateFields upd (some ⟨xorKs key freshIv 0 (strBytes a), freshIv,
          [⟨key, freshIv, aadConst, xorKs key freshIv 0 (strBytes a)⟩]⟩) now x else x)) id =
      .ok (some ⟨u.id, u.email, upd.firstName.getD u.firstName, upd.lastName.getD u.lastName,
        a, upd.phone.getD u.phone, u.createdAt, now⟩) := by
  have hfind' := findUserById_map_update store id
    (applyUpdateFields upd (some ⟨xorKs key freshIv 0 (strBytes a), freshIv,
      [⟨key, freshIv, aadConst, xorKs key freshIv 0 (strBytes a)⟩]⟩) now)
    (fun x => rfl) u hfind
  simp only [getUserProfile, hfind']
  simp only [applyUpdateFields, Option.map_some', Option.getD_some]
  rw [decrypt_encrypt_eq envKey key freshIv a hane hiv hk]

/-- The fresh triple written by a successful aadhaar-replacing repository
update, and the refreshed decrypted profile it returns. -/
theorem repoUpdate_aadhaar_eq (envKey : Option String) (key freshIv : List Nat) (now : Nat)
    (store : List StoredUser) (id : String) (u : StoredUser) (upd : ProfileUpdateData)
    (a : String) (hk : getEncryptionKey envKey = .ok key) (hiv : freshIv.length = 16)
    (hfind : findUserById store id = some u) (ha : upd.aadhaarNumber = some a)
    (hane : a ≠ "") :
    repoUpdateUserProfile envKey freshIv now store id upd =
      .ok (store.map (fun x => if x.id == id then
          applyUpdateFields upd (some ⟨xorKs key freshIv 0 (strBytes a), freshIv,
            [⟨key, freshIv, aadConst, xorKs key freshIv 0 (strBytes a)⟩]⟩) now x
        else x),
        some ⟨u.id, u.email, upd.firstName.getD u.firstName, upd.lastName.getD u.lastName,
          a, upd.phone.getD u.phone, u.createdAt, now⟩) := by
  have henc := encrypt_eq envKey key freshIv a hane hk
  simp only [repoUpdateUserProfile, ha, henc]
  rw [if_pos (by simp [hfind])]
  rw [getUserProfile_after_aadhaar_update envKey key freshIv now store id u upd a hk hiv
    hfind hane]

/-! ### Claims C9 and C10 -/

/-- C9: an aadhaar-replacing repository update freshly encrypts the new
value and writes ciphertext, iv and authTag together from that one
encryption in a single store update; email, password hash and any profile
field not named in the update are unchanged, as are all other records. -/
theorem C9_triple_replaced_wholesale (envKey : Option String) (key freshIv : List Nat)
    (now : Nat) (store : List StoredUser) (id : String) (u : StoredUser)
    (upd : ProfileUpdateData) (a : String)
    (hk : getEncryptionKey envKey = .ok key) (hiv : freshIv.length = 16)
    (hfind : findUserById store id = some u) (ha : upd.aadhaarNumber = some a)
    (hane : a ≠ "") :
    ∃ (store' : List StoredUser) (p : UserProfile),
      repoUpdateUserProfile envKey freshIv now store id upd = .ok (store', some p) ∧
      p.aadhaarNumber = a ∧
      ∃ u', findUserById store' id = some u' ∧
        u'.aadhaarNumber = xorKs key freshIv 0 (strBytes a) ∧
        u'.aadhaarIv = freshIv ∧
        u'.aadhaarAuthTag = [⟨key, freshIv, aadConst, xorKs key freshIv 0 (strBytes a)⟩] ∧
        u'.id = u.id ∧ u'.email = u.email ∧ u'.password = u.password ∧
        u'.createdAt = u.createdAt ∧
        (upd.firstName = none → u'.firstName = u.firstName) ∧
        (upd.lastName = none → u'.lastName = u.lastName) ∧
        (upd.phone = none → u'.phone = u.phone) ∧
        (∀ v ∈ store, v.id ≠ id → v ∈ store') := by
  have heq := repoUpdate_aadhaar_eq envKey key freshIv now store id u upd a hk hiv hfind ha hane
  refine ⟨_, _, heq, rfl, ?_⟩
  refine ⟨applyUpdateFields upd (some ⟨xorKs key freshIv 0 (strBytes a), freshIv,
    [⟨key, freshIv, aadConst, xorKs key freshIv 0 (strBytes a)⟩]⟩) now u, ?_, ?_⟩
  · exact findUserById_map_update store id
      (applyUpdateFields upd (some ⟨xorKs key freshIv 0 (strBytes a), freshIv,
        [⟨key, freshIv, aadConst, xorKs key freshIv 0 (strBytes a)⟩]⟩) now)
      (fun x => rfl) u hfind
  · refine ⟨rfl, rfl, rfl, rfl, rfl, rfl, rfl, ?_, ?_, ?_, ?_⟩
    · intro hfn; simp [applyUpdateFields, hfn]
    · intro hln; simp [applyUpdateFields, hln]
    · intro hph; simp [applyUpdateFields, hph]
    · intro v hv hne; exact mem_map_update hv hne

/-- Witness for C9: replacing `demoUser`'s sensitive id writes a complete
fresh triple under the fresh iv. -/
theorem C9_witness :
    ∃ (store' : List StoredUser) (p : UserProfile),
      repoUpdateUserProfile (some zeros64) (List.replicate 16 1) 600 [demoUser] "u1"
        ⟨none, none, none, some "999988887777"⟩ = .ok (store', some p) ∧
      p.aadhaarNumber = "999988887777" ∧
      ∃ u', findUserById store' "u1" = some u' ∧ u'.aadhaarIv = List.replicate 16 1 := by
  obtain ⟨store', p, h1, h2, u', h3, -, h5, -, -, -, -, -, -, -, -, -⟩ :=
    C9_triple_replaced_wholesale (some zeros64) (List.replicate 32 0) (List.replicate 16 1)
      600 [demoUser] "u1" demoUser ⟨none, none, none, some "999988887777"⟩ "999988887777"
      (by rfl) (by simp) (by rfl) rfl (by decide)
  exact ⟨store', p, h1, h2, u', h3, h5⟩

/-- C10: a whitespace-only aadhaar value skips the service's 12-digit check
(which only runs when the trimmed value is non-empty), is encrypted and
persisted, the update succeeds, and a subsequent profile read returns the
whitespace string. -/
theorem C10_whitespace_aadhaar_gap (envKey : Option String) (key iv : List Nat) (now : Nat)
    (store : List StoredUser) (id : String) (u : StoredUser)
    (hk : getEncryptionKey envKey = .ok key) (hiv : iv.length = 16)
    (hfind : findUserById store id = some u) :
    ∃ (store' : List StoredUser) (p : UserProfile),
      profileUpdateUserProfile envKey iv now store id ⟨none, none, none, some "   "⟩ =
        .ok (store', p) ∧
      p.aadhaarNumber = "   " ∧
      ∃ p', getUserProfile envKey store' id = .ok (some p') ∧ p'.aadhaarNumber = "   " := by
  have hane : ("   " : String) ≠ "" := by decide
  have heq := repoUpdate_aadhaar_eq envKey key iv now store id u
    ⟨none, none, none, some "   "⟩ "   " hk hiv hfind rfl hane
  refine ⟨store.map (fun x => if x.id == id then
      applyUpdateFields ⟨none, none, none, some "   "⟩
        (some ⟨xorKs key iv 0 (strBytes "   "), iv,
          [⟨key, iv, aadConst, xorKs key iv 0 (strBytes "   ")⟩]⟩) now x else x),
    ⟨u.id, u.email, u.firstName, u.lastName, "   ", u.phone, u.createdAt, now⟩,
    ?_, rfl, ?_⟩
  · simp only [profileUpdateUserProfile]
    rw [if_neg (by decide), if_neg (by decide), if_neg (by decide), if_neg (by decide), heq]
    rfl
  · refine ⟨⟨u.id, u.email, u.firstName, u.lastName, "   ", u.phone, u.createdAt, now⟩,
      ?_, rfl⟩
    exact getUserProfile_after_aadhaar_update envKey key iv now store id u
      ⟨none, none, none, some "   "⟩ "   " hk hiv hfind hane

/-- Witness for C10 at the concrete store: updating with `"   "` succeeds
and the profile then reads back `"   "`. -/
theorem C10_witness :
    ∃ (store' : List StoredUser) (p : UserProfile),
      profileUpdateUserProfile (some zeros64) (List.replicate 16 1) 700 [demoUser] "u1"
        ⟨none, none, none, some "   "⟩ = .ok (store', p) ∧
      p.aadhaarNumber = "   " ∧
      ∃ p', getUserProfile (some zeros64) store' "u1" = .ok (some p') ∧
        p'.aadhaarNumber = "   " :=
  C10_whitespace_aadhaar_gap (some zeros64) (List.replicate 32 0) (List.replicate 16 1)
    700 [demoUser] "u1" demoUser (by rfl) (by simp) (by rfl)

end Lenden
